import Mathlib

/-!
# go-seele: the full node service (`seele/seeleservice.go`)

A shallow embedding of `SeeleService`, its constructor `NewSeeleService` and its
`node.Service` methods (`Protocols`, `Start`, `Stop`, `APIs`), with the
accessors `TxPool`, `BlockChain`, `NetVersion` and `ApplyTransaction`.

Modelling conventions.

* Go pointers and interface values are `Option`: `none` is `nil`.
* A Go result pair `(T, error)` is a pair `Option T × Option Error`; `none`
  in the second component is the `nil` error.
* The packages the file imports (`leveldb`, `store`, `core`, `log`, `p2p`,
  `rpc`, `path/filepath`) are not part of this file. Every call into them that
  has an effect or yields a result the service cannot compute is a field of
  `Env`, and each such call is written to a trace of `Event`s together with
  its arguments and its result.
* A run either returns or stops with a run-time panic (`Outcome`). A method
  call on a `nil` interface value, a field read through a `nil` pointer and a
  failed single-value type assertion are the panics of this file.
* The arguments `conf` and `log` of `NewSeeleService` and the receiver of every
  method are taken to be non-nil pointers, and a collaborator that is called
  returns. `NetworkID` is a `uint64` that is only copied, never computed with,
  so it is a `Nat`.
* A collaborator's result is a function of its arguments. `NewSeeleService`
  calls each collaborator at most once, so this loses no run of it.
-/

namespace Seele

/-! ## Data of the collaborating packages -/

/-- Go `error` values. -/
abbrev Error := String

/-- A `common.Address`. -/
structure Address where
  bytes : List Nat
  deriving DecidableEq, Repr

/-- A `*log.SeeleLog`. -/
structure SeeleLog where
  name : String
  deriving DecidableEq, Repr

/-- A non-nil `database.Database` (the handle of an opened store). -/
structure Database where
  id : Nat
  deriving DecidableEq, Repr

/-- The value built by `store.NewBlockchainDatabase(db)`: a wrapper around the
`database.Database` interface value it is given (which may be `nil`). -/
structure BlockchainDatabase where
  db : Option Database
  deriving DecidableEq, Repr

/-- The value built by `core.DefaultGenesis(bcStore)`. -/
structure Genesis where
  bcStore : BlockchainDatabase
  deriving DecidableEq, Repr

/-- A non-nil `*core.Blockchain`. -/
structure Blockchain where
  id : Nat
  deriving DecidableEq, Repr

/-- A `core.TransactionPoolConfig`. -/
structure TransactionPoolConfig where
  capacity : Nat
  deriving DecidableEq, Repr

/-- A non-nil `*core.TransactionPool`. -/
structure TransactionPool where
  id : Nat
  deriving DecidableEq, Repr

/-- A `p2p.Protocol` descriptor. -/
structure Protocol where
  Name : String
  Version : Nat
  deriving DecidableEq, Repr

/-- A non-nil `*SeeleProtocol`; `Protocol` is the field read by
`SeeleService.Protocols`. -/
structure SeeleProtocol where
  Protocol : Protocol
  id : Nat
  deriving DecidableEq, Repr

/-- A `*p2p.Server`. -/
structure Server where
  id : Nat
  deriving DecidableEq, Repr

/-- A `*types.Transaction`. -/
structure Transaction where
  id : Nat
  deriving DecidableEq, Repr

/-! ## The data of `seeleservice.go` -/

/-- The fields of `Config` that `NewSeeleService` reads. -/
structure Config where
  NetworkID : Nat
  Coinbase : Address
  TxConf : TransactionPoolConfig
  deriving DecidableEq, Repr

/-- ServiceContext is a collection of service configuration inherited from node. -/
structure ServiceContext where
  DataDir : String
  deriving DecidableEq, Repr

/-- SeeleService implements full node service. -/
structure SeeleService where
  networkID : Nat
  seeleProtocol : Option SeeleProtocol
  log : SeeleLog
  coinbase : Address
  txPool : Option TransactionPool
  chain : Option Blockchain
  chainDB : Option Database
  deriving DecidableEq, Repr

/-- The dynamic values a `context.Context` may hold under a key: a
`ServiceContext`, or a value of some other type. -/
inductive CtxValue where
  | serviceContext (sc : ServiceContext)
  | other (typeName : String)
  deriving DecidableEq, Repr

/-- A `context.Context`, as its `Value` lookup (`none` is the `nil` interface). -/
structure Context where
  Value : String → Option CtxValue

/-- The single-value type assertion `v.(ServiceContext)`: `none` stands for the
run-time panic of a failed assertion. -/
def assertServiceContext : Option CtxValue → Option ServiceContext
  | some (CtxValue.serviceContext sc) => some sc
  | _ => none

/-! ## Effects -/

/-- The calls into collaborating packages, with arguments and results. -/
inductive Event where
  | logInfo (format : String) (arg : String)
  | logError (format : String) (err : Error)
  | newLevelDB (path : String) (res : Option Database × Option Error)
  | dbClose (db : Database) (res : Option Error)
  | genesisInitialize (genesis : Genesis) (res : Option Error)
  | newBlockchain (bcStore : BlockchainDatabase) (res : Option Blockchain × Option Error)
  | newTransactionPool (conf : TransactionPoolConfig) (res : Option TransactionPool)
  | newSeeleProtocol (s : SeeleService) (log : SeeleLog)
      (res : Option SeeleProtocol × Option Error)
  | protocolStop (receiver : Option SeeleProtocol)
  | protocolStart (receiver : Option SeeleProtocol) (srvr : Option Server)
      (res : Option Error)
  deriving DecidableEq, Repr

/-- How a call ends: it returns a value, or the goroutine panics. -/
inductive Outcome (α : Type) where
  | ret (v : α)
  | panicked (msg : String)
  deriving DecidableEq, Repr

/-- Did the call return (rather than panic)? -/
def Outcome.returns {α : Type} : Outcome α → Bool
  | Outcome.ret _ => true
  | Outcome.panicked _ => false

/-- The collaborators of the service: what each call into another package
yields. `BlockChainDir` is the package constant of that name. -/
structure Env where
  BlockChainDir : String
  filepathJoin : String → String → String
  newLevelDB : String → Option Database × Option Error
  dbClose : Database → Option Error
  genesisInitialize : Genesis → Option Error
  newBlockchain : BlockchainDatabase → Option Blockchain × Option Error
  newTransactionPool : TransactionPoolConfig → Option TransactionPool
  newSeeleProtocol : SeeleService → SeeleLog → Option SeeleProtocol × Option Error

/-- Modelled from the spec: the handler's `Start` is not in the sources; the
spec gives the Peer Protocol Handler contract
`Start(networkServerHandle) -> error`. This is the result such a call would
yield. -/
structure HandlerEnv where
  protocolStart : SeeleProtocol → Option Server → Option Error

/-- The panic message of a nil dereference. -/
def nilDeref : String := "invalid memory address or nil pointer dereference"

/-- The panic message of a failed type assertion. -/
def badAssert : String := "interface conversion: interface is not seele.ServiceContext"

/-! ## Accessors -/

/-- Source: `func (s *SeeleService) TxPool() *core.TransactionPool`. -/
def SeeleService.TxPool (s : SeeleService) : Option TransactionPool := s.txPool

/-- Source: `func (s *SeeleService) BlockChain() *core.Blockchain`. -/
def SeeleService.BlockChain (s : SeeleService) : Option Blockchain := s.chain

/-- Source: `func (s *SeeleService) NetVersion() uint64`. -/
def SeeleService.NetVersion (s : SeeleService) : Nat := s.networkID

/-- ApplyTransaction applys a transaction (source: the body is `return nil`). -/
def SeeleService.ApplyTransaction (_s : SeeleService) (_coinbase : Address)
    (_tx : Option Transaction) : Option Error := none

/-! ## Construction -/

/-- The call `s.chainDB.Close()` followed by `log.Error(format, err)` and
`return nil, err`: the shape shared by the four failure branches of
`NewSeeleService`. The call panics when `s.chainDB` is the nil interface. -/
def closeAndFail (env : Env) (s : SeeleService) (format : String) (err : Error)
    (tr : List Event) : List Event × Outcome (Option SeeleService × Option Error) :=
  match s.chainDB with
  | none => (tr, Outcome.panicked nilDeref)
  | some db =>
    (tr ++ [Event.dbClose db (env.dbClose db), Event.logError format err],
      Outcome.ret (none, some err))

/-- NewSeeleService create SeeleService (source lines 52-93). The result is the
trace of collaborator calls and the outcome: the returned pair `(s, err)` or a
panic. -/
def NewSeeleService (env : Env) (ctx : Context) (conf : Config) (log : SeeleLog) :
    List Event × Outcome (Option SeeleService × Option Error) :=
  -- lines 53-57: the composite literal and `s.coinbase = conf.Coinbase`
  let s0 : SeeleService :=
    { networkID := conf.NetworkID, seeleProtocol := none, log := log,
      coinbase := conf.Coinbase, txPool := none, chain := none, chainDB := none }
  -- line 58
  match assertServiceContext (ctx.Value "ServiceContext") with
  | none => ([], Outcome.panicked badAssert)
  | some serviceContext =>
    -- lines 59-61
    let dbPath := env.filepathJoin serviceContext.DataDir env.BlockChainDir
    let opened := env.newLevelDB dbPath
    let s1 : SeeleService := { s0 with chainDB := opened.1 }
    let tr1 : List Event :=
      [Event.logInfo "NewSeeleService BlockChain datadir is %s" dbPath,
        Event.newLevelDB dbPath opened]
    match opened.2 with
    | some err =>
      -- lines 62-66
      closeAndFail env s1 "NewSeeleService Create BlockChain err. %s" err tr1
    | none =>
      -- lines 68-70
      let bcStore : BlockchainDatabase := { db := s1.chainDB }
      let genesis : Genesis := { bcStore := bcStore }
      let initErr := env.genesisInitialize genesis
      let tr2 := tr1 ++ [Event.genesisInitialize genesis initErr]
      match initErr with
      | some err =>
        -- lines 71-75
        closeAndFail env s1 "NewSeeleService genesis.Initialize err. %s" err tr2
      | none =>
        -- line 77
        let built := env.newBlockchain bcStore
        let s2 : SeeleService := { s1 with chain := built.1 }
        let tr3 := tr2 ++ [Event.newBlockchain bcStore built]
        match built.2 with
        | some err =>
          -- lines 78-82
          closeAndFail env s2 "NewSeeleService init chain failed. %s" err tr3
        | none =>
          -- lines 84-85
          let pool := env.newTransactionPool conf.TxConf
          let s3 : SeeleService := { s2 with txPool := pool }
          let handler := env.newSeeleProtocol s3 log
          let s4 : SeeleService := { s3 with seeleProtocol := handler.1 }
          let tr4 := tr3 ++
            [Event.newTransactionPool conf.TxConf pool,
              Event.newSeeleProtocol s3 log handler]
          match handler.2 with
          | some err =>
            -- lines 86-90
            closeAndFail env s4 "NewSeeleService create seeleProtocol err. %s" err tr4
          | none =>
            -- line 92
            (tr4, Outcome.ret (some s4, none))

/-! ## The `node.Service` methods -/

/-- Protocols implements node.Service, returning all the currently configured
network protocols to start (source lines 97-100). Reading `.Protocol` through a
nil `s.seeleProtocol` panics; `protos` starts as the nil slice. -/
def SeeleService.Protocols (s : SeeleService) : Outcome (List Protocol) :=
  match s.seeleProtocol with
  | none => Outcome.panicked nilDeref
  | some p => Outcome.ret (([] : List Protocol) ++ [p.Protocol])

/-- Start implements node.Service (source lines 103-106): the body is the single
statement `return nil`. -/
def SeeleService.Start (_s : SeeleService) (_srvr : Option Server) :
    List Event × Outcome (Option Error) :=
  ([], Outcome.ret none)

/-- Stop implements node.Service, terminating all internal goroutines (source
lines 109-117). The handler's `Stop` is called on the pointer held in
`s.seeleProtocol`, whatever it is, and is recorded with that receiver; the
call `s.chainDB.Close()` panics on the nil interface; its result is dropped. -/
def SeeleService.Stop (env : Env) (s : SeeleService) :
    List Event × Outcome (Option Error) :=
  let tr : List Event := [Event.protocolStop s.seeleProtocol]
  match s.chainDB with
  | none => (tr, Outcome.panicked nilDeref)
  | some db => (tr ++ [Event.dbClose db (env.dbClose db)], Outcome.ret none)

/-- Modelled from the spec: `NewPublicSeeleAPI` is not in the sources; the spec
describes its result as "a read-facing API object constructed over the Node
Service". The object records the service it was built over. -/
structure PublicSeeleAPI where
  s : SeeleService
  deriving DecidableEq, Repr

/-- Modelled from the spec: the constructor of `PublicSeeleAPI` (see there). -/
def NewPublicSeeleAPI (s : SeeleService) : PublicSeeleAPI := { s := s }

/-- An `rpc.API` descriptor. -/
structure API where
  Namespace : String
  Version : String
  Service : PublicSeeleAPI
  Public : Bool
  deriving DecidableEq, Repr

/-- APIs implements node.Service, returning the collection of RPC services the
seele package offers (source lines 120-130); `apis` starts as the nil slice. -/
def SeeleService.APIs (s : SeeleService) : List API :=
  ([] : List API) ++
    [{ Namespace := "seele", Version := "1.0", Service := NewPublicSeeleAPI s,
       Public := true }]

/-! ## Lifecycles: sequences of method calls on one service -/

/-- A method call by the hosting process. -/
inductive Call where
  | Start (srvr : Option Server)
  | Stop
  | Protocols
  | APIs
  | NetVersion
  | TxPool
  | BlockChain
  | ApplyTransaction (coinbase : Address) (tx : Option Transaction)
  deriving DecidableEq, Repr

/-- The host's view of a service: the struct behind the pointer, the calls into
collaborators made so far, and whether a call has panicked. -/
structure Host where
  svc : SeeleService
  trace : List Event
  crashed : Bool
  deriving DecidableEq, Repr

/-- The effect of one outcome on the host: the events are appended and a panic
is recorded. No method of the file assigns through its receiver, so `svc` is
carried over. -/
def Host.after {α : Type} (st : Host) (r : List Event × Outcome α) : Host :=
  match r.2 with
  | Outcome.ret _ => { st with trace := st.trace ++ r.1 }
  | Outcome.panicked _ => { st with trace := st.trace ++ r.1, crashed := true }

/-- One call; after a panic nothing runs any more. -/
def Host.call (env : Env) (st : Host) (c : Call) : Host :=
  if st.crashed then st
  else
    match c with
    | Call.Start srvr => st.after (st.svc.Start srvr)
    | Call.Stop => st.after (st.svc.Stop env)
    | Call.Protocols => st.after (([] : List Event), st.svc.Protocols)
    | Call.APIs => st.after (([] : List Event), Outcome.ret st.svc.APIs)
    | Call.NetVersion => st.after (([] : List Event), Outcome.ret st.svc.NetVersion)
    | Call.TxPool => st.after (([] : List Event), Outcome.ret st.svc.TxPool)
    | Call.BlockChain => st.after (([] : List Event), Outcome.ret st.svc.BlockChain)
    | Call.ApplyTransaction coinbase tx =>
      st.after (([] : List Event), Outcome.ret (st.svc.ApplyTransaction coinbase tx))

/-- A sequence of calls, in order. -/
def Host.calls (env : Env) (st : Host) (cs : List Call) : Host :=
  cs.foldl (Host.call env) st

/-! ## Reading traces -/

/-- The five construction steps, in the order of the source. -/
inductive Step where
  | storeOpen
  | genesisInit
  | chainNew
  | poolNew
  | protocolNew
  deriving DecidableEq, Repr

/-- The order in which `NewSeeleService` is written to take the steps. -/
def constructionOrder : List Step :=
  [Step.storeOpen, Step.genesisInit, Step.chainNew, Step.poolNew, Step.protocolNew]

/-- The construction step an event is, if any. -/
def Event.step : Event → Option Step
  | Event.newLevelDB _ _ => some Step.storeOpen
  | Event.genesisInitialize _ _ => some Step.genesisInit
  | Event.newBlockchain _ _ => some Step.chainNew
  | Event.newTransactionPool _ _ => some Step.poolNew
  | Event.newSeeleProtocol _ _ _ => some Step.protocolNew
  | _ => none

/-- The error a construction step returned, if it returned one. -/
def Event.stepError : Event → Option Error
  | Event.newLevelDB _ res => res.2
  | Event.genesisInitialize _ res => res
  | Event.newBlockchain _ res => res.2
  | Event.newSeeleProtocol _ _ res => res.2
  | _ => none

/-- Is the event a `Close` of a store handle? -/
def Event.isClose : Event → Bool
  | Event.dbClose _ _ => true
  | _ => false

/-- Is the event a `Close` of the handle `db`? -/
def Event.isCloseOf (db : Database) : Event → Bool
  | Event.dbClose d _ => decide (d = db)
  | _ => false

/-- Is the event a call of the handler's `Start`? -/
def Event.isProtocolStart : Event → Bool
  | Event.protocolStart _ _ _ => true
  | _ => false

/-- The number of `Close` calls in a trace. -/
def closeCount (tr : List Event) : Nat := (tr.filter Event.isClose).length

/-- The number of `Close` calls on the handle `db` in a trace. -/
def closeCountOf (db : Database) (tr : List Event) : Nat :=
  (tr.filter (Event.isCloseOf db)).length

/-- After a step that returned an error, no further step is taken. -/
def StopsAtFirstFailure : List Event → Prop
  | [] => True
  | e :: rest => (e.stepError ≠ none → ∀ e' ∈ rest, e'.step = none) ∧
      StopsAtFirstFailure rest

/-- The collaborators keep the Go convention that a constructor which reports
no error hands back a non-nil value. -/
def Env.NonNilOnSuccess (env : Env) : Prop :=
  (∀ path, (env.newLevelDB path).2 = none → (env.newLevelDB path).1 ≠ none) ∧
  (∀ b, (env.newBlockchain b).2 = none → (env.newBlockchain b).1 ≠ none) ∧
  (∀ s l, (env.newSeeleProtocol s l).2 = none → (env.newSeeleProtocol s l).1 ≠ none)

/-! ## Concrete collaborators for the worked examples -/

/-- A context holding `ServiceContext{DataDir: "/tmp/node1"}`. -/
def ctx1 : Context :=
  { Value := fun key =>
      if key = "ServiceContext" then
        some (CtxValue.serviceContext { DataDir := "/tmp/node1" })
      else none }

/-- A configuration with `NetworkID = 1`. -/
def conf1 : Config :=
  { NetworkID := 1, Coinbase := { bytes := [1, 2, 3] }, TxConf := { capacity := 16 } }

/-- A log handle. -/
def log1 : SeeleLog := { name := "seele" }

/-- Collaborators that all succeed. -/
def envOk : Env :=
  { BlockChainDir := "/db/blockchain"
    filepathJoin := fun a b => a ++ b
    newLevelDB := fun _ => (some { id := 7 }, none)
    dbClose := fun _ => none
    genesisInitialize := fun _ => none
    newBlockchain := fun _ => (some { id := 11 }, none)
    newTransactionPool := fun _ => some { id := 13 }
    newSeeleProtocol := fun _ _ =>
      (some { Protocol := { Name := "seele", Version := 1 }, id := 17 }, none) }

/-- Collaborators whose store cannot be opened: `leveldb.NewLevelDB` returns
`nil` together with the error, as Go constructors do. -/
def envOpenFails : Env :=
  { envOk with newLevelDB := fun _ => (none, some "permission denied") }

/-- Collaborators whose genesis initialization fails on an opened store. -/
def envGenesisFails : Env :=
  { envOk with genesisInitialize := fun _ => some "genesis mismatch" }

/-- Collaborators whose store `Close` reports an error. -/
def envCloseErr : Env :=
  { envOk with dbClose := fun _ => some "close failed" }

/-- A handler whose `Start` would report an error. -/
def handlerStartFails : HandlerEnv :=
  { protocolStart := fun _ _ => some "listen failed" }

/-- The service `NewSeeleService envOk ctx1 conf1 log1` returns. -/
def svc1 : SeeleService :=
  { networkID := 1
    seeleProtocol := some { Protocol := { Name := "seele", Version := 1 }, id := 17 }
    log := log1
    coinbase := { bytes := [1, 2, 3] }
    txPool := some { id := 13 }
    chain := some { id := 11 }
    chainDB := some { id := 7 } }

end Seele

namespace Seele

/-! ## Lemmas on traces and on construction -/

theorem stopsAtFirstFailure_split {tr : List Event} (h : StopsAtFirstFailure tr) :
    ∀ (pre : List Event) (e : Event) (post : List Event), tr = pre ++ e :: post →
      e.stepError ≠ none → ∀ e' ∈ post, e'.step = none := by
  intro pre
  induction pre generalizing tr with
  | nil =>
    intro e post htr
    subst htr
    exact h.1
  | cons a pre ih =>
    intro e post htr
    subst htr
    exact ih h.2 e post rfl

theorem newSeeleService_stopsAtFirstFailure (env : Env) (ctx : Context) (conf : Config)
    (log : SeeleLog) : StopsAtFirstFailure (NewSeeleService env ctx conf log).1 := by
  unfold NewSeeleService closeAndFail
  cases assertServiceContext (ctx.Value "ServiceContext") with
  | none => simp [StopsAtFirstFailure]
  | some sc =>
    simp only
    split
    · split <;> simp_all [StopsAtFirstFailure, Event.stepError, Event.step]
    · split
      · split <;> simp_all [StopsAtFirstFailure, Event.stepError, Event.step]
      · split
        · split <;> simp_all [StopsAtFirstFailure, Event.stepError, Event.step]
        · split
          · split <;> simp_all [StopsAtFirstFailure, Event.stepError, Event.step]
          · simp_all [StopsAtFirstFailure, Event.stepError, Event.step]

theorem newSeeleService_steps_ordered (env : Env) (ctx : Context) (conf : Config)
    (log : SeeleLog) :
    (NewSeeleService env ctx conf log).1.filterMap Event.step <+: constructionOrder := by
  unfold NewSeeleService closeAndFail constructionOrder
  cases assertServiceContext (ctx.Value "ServiceContext") with
  | none => simp
  | some sc =>
    simp only
    split
    · split <;> simp [List.filterMap_cons, Event.step]
    · split
      · split <;> simp [List.filterMap_cons, Event.step]
      · split
        · split <;> simp [List.filterMap_cons, Event.step]
        · split
          · split <;> simp [List.filterMap_cons, Event.step]
          · simp [List.filterMap_cons, Event.step]

theorem newSeeleService_success {env : Env} {ctx : Context} {conf : Config}
    {log : SeeleLog} {tr : List Event} {s : SeeleService}
    (h : NewSeeleService env ctx conf log = (tr, Outcome.ret (some s, none))) :
    s.networkID = conf.NetworkID ∧ s.coinbase = conf.Coinbase ∧ s.log = log ∧
    s.txPool = env.newTransactionPool conf.TxConf ∧
    (∃ path, s.chainDB = (env.newLevelDB path).1 ∧ (env.newLevelDB path).2 = none) ∧
    (∃ b, s.chain = (env.newBlockchain b).1 ∧ (env.newBlockchain b).2 = none) ∧
    (∃ s' l, s.seeleProtocol = (env.newSeeleProtocol s' l).1 ∧
      (env.newSeeleProtocol s' l).2 = none ∧ s'.networkID = conf.NetworkID) ∧
    tr.filterMap Event.step = constructionOrder ∧ closeCount tr = 0 := by
  unfold NewSeeleService closeAndFail at h
  cases h0 : assertServiceContext (ctx.Value "ServiceContext") with
  | none => simp [h0] at h
  | some sc =>
    simp only [h0] at h
    split at h
    · split at h <;> simp at h
    · split at h
      · split at h <;> simp at h
      · split at h
        · split at h <;> simp at h
        · split at h
          · split at h <;> simp at h
          · simp only [Prod.mk.injEq, Outcome.ret.injEq, Option.some.injEq, and_true] at h
            obtain ⟨htr, hs⟩ := h
            subst hs
            subst htr
            refine ⟨rfl, rfl, rfl, rfl, ⟨_, rfl, by assumption⟩, ⟨_, rfl, by assumption⟩,
              ⟨_, _, rfl, by assumption, rfl⟩, ?_, ?_⟩
            · simp [List.filterMap_cons, Event.step, constructionOrder]
            · simp [closeCount, Event.isClose]

theorem pair_snd_none {α β : Type} (x : Option α × Option β) (hx : x.2 = none) :
    x = (x.1, none) := by
  cases x
  simp_all

theorem newSeeleService_protocol_arg (env : Env) (ctx : Context) (conf : Config)
    (log : SeeleLog) (s : SeeleService) (l : SeeleLog)
    (res : Option SeeleProtocol × Option Error)
    (h : Event.newSeeleProtocol s l res ∈ (NewSeeleService env ctx conf log).1) :
    s.networkID = conf.NetworkID ∧ s.coinbase = conf.Coinbase ∧ s.seeleProtocol = none ∧
    Event.newBlockchain { db := s.chainDB } (s.chain, none) ∈
      (NewSeeleService env ctx conf log).1 ∧
    Event.newTransactionPool conf.TxConf s.txPool ∈
      (NewSeeleService env ctx conf log).1 := by
  unfold NewSeeleService closeAndFail at h ⊢
  cases h0 : assertServiceContext (ctx.Value "ServiceContext") with
  | none => simp [h0] at h
  | some sc =>
    simp only [h0] at h ⊢
    split at h
    · split at h <;> simp at h
    · split at h
      · split at h <;> simp at h
      · split at h
        · split at h <;> simp at h
        · split at h
          · split at h
            · simp at h
              obtain ⟨hs, hl, hres⟩ := h
              subst hs
              simp_all
              exact (pair_snd_none _ (by assumption)).symm
            · simp at h
              obtain ⟨hs, hl, hres⟩ := h
              subst hs
              simp_all
              exact (pair_snd_none _ (by assumption)).symm
          · simp at h
            obtain ⟨hs, hl, hres⟩ := h
            subst hs
            simp_all
            exact (pair_snd_none _ (by assumption)).symm

theorem newSeeleService_open_event {env : Env} {ctx : Context} {conf : Config}
    {log : SeeleLog} {path : String} {res : Option Database × Option Error}
    (hopen : Event.newLevelDB path res ∈ (NewSeeleService env ctx conf log).1) :
    ∃ sc, assertServiceContext (ctx.Value "ServiceContext") = some sc ∧
      path = env.filepathJoin sc.DataDir env.BlockChainDir ∧
      env.newLevelDB (env.filepathJoin sc.DataDir env.BlockChainDir) = res := by
  unfold NewSeeleService closeAndFail at hopen
  cases h0 : assertServiceContext (ctx.Value "ServiceContext") with
  | none => simp [h0] at hopen
  | some sc =>
    refine ⟨sc, rfl, ?_⟩
    simp only [h0] at hopen
    split at hopen
    · split at hopen <;> simp at hopen <;> exact ⟨hopen.1, hopen.2.symm⟩
    · split at hopen
      · split at hopen <;> simp at hopen <;> exact ⟨hopen.1, hopen.2.symm⟩
      · split at hopen
        · split at hopen <;> simp at hopen <;> exact ⟨hopen.1, hopen.2.symm⟩
        · split at hopen
          · split at hopen <;> simp at hopen <;> exact ⟨hopen.1, hopen.2.symm⟩
          · simp at hopen
            exact ⟨hopen.1, hopen.2.symm⟩

theorem newSeeleService_failed_step {env : Env} {ctx : Context} {conf : Config}
    {log : SeeleLog} {path : String} {db : Database}
    (hopen : Event.newLevelDB path (some db, none) ∈ (NewSeeleService env ctx conf log).1)
    (hfail : ∃ e ∈ (NewSeeleService env ctx conf log).1, e.stepError ≠ none) :
    closeCountOf db (NewSeeleService env ctx conf log).1 = 1 ∧
    closeCount (NewSeeleService env ctx conf log).1 = 1 ∧
    ∃ err, (∃ e ∈ (NewSeeleService env ctx conf log).1, e.stepError = some err) ∧
      (NewSeeleService env ctx conf log).2 = Outcome.ret (none, some err) := by
  obtain ⟨e, he, hne⟩ := hfail
  obtain ⟨sc, h0, -, hr⟩ := newSeeleService_open_event hopen
  clear hopen
  unfold NewSeeleService closeAndFail at he ⊢
  simp only [h0, hr] at he ⊢
  split
  · simp_all [closeCountOf, closeCount, Event.isCloseOf, Event.isClose, Event.stepError]
  · split
    · simp_all [closeCountOf, closeCount, Event.isCloseOf, Event.isClose, Event.stepError]
    · split
      · simp_all [closeCountOf, closeCount, Event.isCloseOf, Event.isClose, Event.stepError]
      · exfalso
        simp_all only [List.cons_append, List.nil_append, List.mem_cons,
          List.mem_singleton, List.not_mem_nil, or_false]
        rcases he with he | he | he | he | he | he <;> subst he <;>
          simp_all [Event.stepError]

/-! ## Lemmas on lifecycles -/

theorem Host.after_svc {α : Type} (st : Host) (r : List Event × Outcome α) :
    (st.after r).svc = st.svc := by
  unfold Host.after
  split <;> rfl

theorem Host.call_svc (env : Env) (st : Host) (c : Call) :
    (Host.call env st c).svc = st.svc := by
  unfold Host.call
  split
  · rfl
  · cases c <;> exact Host.after_svc _ _

theorem Host.calls_svc (env : Env) (cs : List Call) (st : Host) :
    (Host.calls env st cs).svc = st.svc := by
  unfold Host.calls
  induction cs generalizing st with
  | nil => rfl
  | cons c cs ih =>
    rw [List.foldl_cons, ih, Host.call_svc]

theorem constructed_handles {env : Env} {ctx : Context} {conf : Config} {log : SeeleLog}
    {tr : List Event} {s : SeeleService} (henv : env.NonNilOnSuccess)
    (h : NewSeeleService env ctx conf log = (tr, Outcome.ret (some s, none))) :
    ∃ p db, s.seeleProtocol = some p ∧ s.chainDB = some db := by
  obtain ⟨-, -, -, -, ⟨path, hdb, hdbe⟩, -, ⟨s', l, hp, hpe, -⟩, -, -⟩ :=
    newSeeleService_success h
  have h1 := henv.1 path hdbe
  have h2 := henv.2.2 s' l hpe
  rw [← hdb] at h1
  rw [← hp] at h2
  obtain ⟨p, hp'⟩ := Option.ne_none_iff_exists'.mp h2
  obtain ⟨db, hdb'⟩ := Option.ne_none_iff_exists'.mp h1
  exact ⟨p, db, hp', hdb'⟩

theorem envOk_nonNil : envOk.NonNilOnSuccess := by
  refine ⟨?_, ?_, ?_⟩ <;> intros <;> simp [envOk]

/-! ## Where the failure branch of the store open behaves as documented -/

theorem newSeeleService_open_failure_with_handle (env : Env) (ctx : Context)
    (conf : Config) (log : SeeleLog) (sc : ServiceContext) (db : Database) (err : Error)
    (h0 : assertServiceContext (ctx.Value "ServiceContext") = some sc)
    (hr : env.newLevelDB (env.filepathJoin sc.DataDir env.BlockChainDir) =
      (some db, some err)) :
    NewSeeleService env ctx conf log =
      ([Event.logInfo "NewSeeleService BlockChain datadir is %s"
          (env.filepathJoin sc.DataDir env.BlockChainDir),
        Event.newLevelDB (env.filepathJoin sc.DataDir env.BlockChainDir) (some db, some err),
        Event.dbClose db (env.dbClose db),
        Event.logError "NewSeeleService Create BlockChain err. %s" err],
       Outcome.ret (none, some err)) := by
  unfold NewSeeleService closeAndFail
  simp only [h0, hr]
  rfl

theorem newSeeleService_open_failure_nil_handle (env : Env) (ctx : Context)
    (conf : Config) (log : SeeleLog) (sc : ServiceContext) (err : Error)
    (h0 : assertServiceContext (ctx.Value "ServiceContext") = some sc)
    (hr : env.newLevelDB (env.filepathJoin sc.DataDir env.BlockChainDir) =
      (none, some err)) :
    NewSeeleService env ctx conf log =
      ([Event.logInfo "NewSeeleService BlockChain datadir is %s"
          (env.filepathJoin sc.DataDir env.BlockChainDir),
        Event.newLevelDB (env.filepathJoin sc.DataDir env.BlockChainDir) (none, some err)],
       Outcome.panicked nilDeref) := by
  unfold NewSeeleService closeAndFail
  simp only [h0, hr]

theorem newSeeleService_returned {env : Env} {ctx : Context} {conf : Config}
    {log : SeeleLog} {tr : List Event} {s : Option SeeleService} {err : Option Error}
    (h : NewSeeleService env ctx conf log = (tr, Outcome.ret (s, err))) :
    (s ≠ none ↔ err = none) ∧ tr.filterMap Event.stepError = err.toList ∧
    closeCount tr = err.toList.length := by
  unfold NewSeeleService closeAndFail at h
  cases h0 : assertServiceContext (ctx.Value "ServiceContext") with
  | none => simp [h0] at h
  | some sc =>
    simp only [h0] at h
    split at h
    · split at h
      · simp at h
      · simp only [Prod.mk.injEq, Outcome.ret.injEq] at h
        obtain ⟨rfl, rfl, rfl⟩ := h
        simp_all [List.filterMap_cons, Event.stepError, closeCount, Event.isClose]
    · split at h
      · split at h
        · simp at h
        · simp only [Prod.mk.injEq, Outcome.ret.injEq] at h
          obtain ⟨rfl, rfl, rfl⟩ := h
          simp_all [List.filterMap_cons, Event.stepError, closeCount, Event.isClose]
      · split at h
        · split at h
          · simp at h
          · simp only [Prod.mk.injEq, Outcome.ret.injEq] at h
            obtain ⟨rfl, rfl, rfl⟩ := h
            simp_all [List.filterMap_cons, Event.stepError, closeCount, Event.isClose]
        · split at h
          · split at h
            · simp at h
            · simp only [Prod.mk.injEq, Outcome.ret.injEq] at h
              obtain ⟨rfl, rfl, rfl⟩ := h
              simp_all [List.filterMap_cons, Event.stepError, closeCount, Event.isClose]
          · simp only [Prod.mk.injEq, Outcome.ret.injEq] at h
            obtain ⟨rfl, rfl, rfl⟩ := h
            simp_all [List.filterMap_cons, Event.stepError, closeCount, Event.isClose]

theorem Host.call_of_not_stop (env : Env) (st : Host) (c : Call) (p : SeeleProtocol)
    (hp : st.svc.seeleProtocol = some p) (hc : c ≠ Call.Stop) :
    Host.call env st c = st := by
  unfold Host.call
  split
  · rfl
  · rename_i hcr
    obtain ⟨svc, trace, crashed⟩ := st
    simp only [Bool.not_eq_true] at hcr
    subst hcr
    cases c <;>
      simp_all [Host.after, SeeleService.Start, SeeleService.Protocols]

theorem Host.calls_of_no_stop (env : Env) (cs : List Call) (st : Host) (p : SeeleProtocol)
    (hp : st.svc.seeleProtocol = some p) (hcs : Call.Stop ∉ cs) :
    Host.calls env st cs = st := by
  unfold Host.calls
  induction cs with
  | nil => rfl
  | cons c cs ih =>
    have hc : c ≠ Call.Stop := fun hc => hcs (by simp [hc])
    have hrest : Call.Stop ∉ cs := fun hm => hcs (List.mem_cons_of_mem _ hm)
    rw [List.foldl_cons, Host.call_of_not_stop env st c p hp hc]
    exact ih hrest

theorem lifecycle_closes_once {env : Env} {ctx : Context} {conf : Config} {log : SeeleLog}
    {tr : List Event} {s : SeeleService} (henv : env.NonNilOnSuccess)
    (h : NewSeeleService env ctx conf log = (tr, Outcome.ret (some s, none)))
    (env' : Env) (cs : List Call) (hcs : Call.Stop ∉ cs) :
    closeCount tr = 0 ∧
    closeCount (Host.calls env' { svc := s, trace := tr, crashed := false }
      (cs ++ [Call.Stop])).trace = 1 ∧
    (Host.calls env' { svc := s, trace := tr, crashed := false }
      (cs ++ [Call.Stop])).crashed = false := by
  obtain ⟨p, db, hp, hdb⟩ := constructed_handles henv h
  have h0 : closeCount tr = 0 := (newSeeleService_success h).2.2.2.2.2.2.2.2
  have hpre := Host.calls_of_no_stop env' cs { svc := s, trace := tr, crashed := false } p hp hcs
  unfold Host.calls at hpre ⊢
  rw [List.foldl_append, hpre]
  unfold closeCount at h0 ⊢
  simp [Host.call, Host.after, SeeleService.Stop, hdb, List.filter_append, h0, Event.isClose]

/-! ## The claims -/

/-- C1 (defect in the code): when `leveldb.NewLevelDB` fails and hands back the
nil handle together with its error, `NewSeeleService` does not return that
error: the call `s.chainDB.Close()` of the failure branch is made on the nil
interface and the run panics, with no `Close` performed and nothing logged as
an error. -/
theorem newSeeleService_open_failure_panics :
    NewSeeleService envOpenFails ctx1 conf1 log1 =
      ([Event.logInfo "NewSeeleService BlockChain datadir is %s" "/tmp/node1/db/blockchain",
        Event.newLevelDB "/tmp/node1/db/blockchain" (none, some "permission denied")],
       Outcome.panicked nilDeref) := by
  decide

/-- C2: in every run of `NewSeeleService` whose store open returned a handle
and no error and in which a later step returned an error, `Close` is called
exactly once (on that handle, and once over all handles), and the run returns
the nil service together with the error of a step of the run. -/
theorem newSeeleService_later_failure_closes_once (env : Env) (ctx : Context)
    (conf : Config) (log : SeeleLog) (path : String) (db : Database)
    (hopen : Event.newLevelDB path (some db, none) ∈ (NewSeeleService env ctx conf log).1)
    (hfail : ∃ e ∈ (NewSeeleService env ctx conf log).1, e.stepError ≠ none) :
    closeCountOf db (NewSeeleService env ctx conf log).1 = 1 ∧
    closeCount (NewSeeleService env ctx conf log).1 = 1 ∧
    ∃ err, (∃ e ∈ (NewSeeleService env ctx conf log).1, e.stepError = some err) ∧
      (NewSeeleService env ctx conf log).2 = Outcome.ret (none, some err) :=
  newSeeleService_failed_step hopen hfail

/-- C2, at a run whose genesis initialization fails on the opened store 7. -/
theorem newSeeleService_later_failure_closes_once_witness :
    Event.newLevelDB "/tmp/node1/db/blockchain" (some { id := 7 }, none) ∈
      (NewSeeleService envGenesisFails ctx1 conf1 log1).1 ∧
    closeCountOf { id := 7 } (NewSeeleService envGenesisFails ctx1 conf1 log1).1 = 1 ∧
    closeCount (NewSeeleService envGenesisFails ctx1 conf1 log1).1 = 1 ∧
    ∃ err, (∃ e ∈ (NewSeeleService envGenesisFails ctx1 conf1 log1).1,
        e.stepError = some err) ∧
      (NewSeeleService envGenesisFails ctx1 conf1 log1).2 = Outcome.ret (none, some err) :=
  ⟨by decide,
    newSeeleService_later_failure_closes_once envGenesisFails ctx1 conf1 log1
      "/tmp/node1/db/blockchain" { id := 7 } (by decide)
      ⟨Event.genesisInitialize { bcStore := { db := some { id := 7 } } }
          (some "genesis mismatch"), by decide, by decide⟩⟩

/-- C3 (defect in the code): `Start` does not activate the protocol handler. On
the constructed service `svc1` and a server handle it makes no call at all, so
the handler's `Start` is invoked zero times, and it returns nil although the
handler's `Start` on that handle would report an error. -/
theorem start_never_calls_handler :
    svc1.seeleProtocol = some { Protocol := { Name := "seele", Version := 1 }, id := 17 } ∧
    ((svc1.Start (some { id := 5 })).1.filter Event.isProtocolStart).length = 0 ∧
    (svc1.Start (some { id := 5 })).1 = [] ∧
    (svc1.Start (some { id := 5 })).2 = Outcome.ret none ∧
    handlerStartFails.protocolStart
      { Protocol := { Name := "seele", Version := 1 }, id := 17 } (some { id := 5 }) =
        some "listen failed" := by
  decide

/-- C4: on every service returned by a successful `NewSeeleService` (with
collaborators that hand back non-nil values when they report no error), `Stop`
calls the handler's `Stop` on the service's handler, then `Close` on the
service's store handle, each exactly once and in that order, and returns nil
whatever `Close` returns. -/
theorem stop_stops_handler_then_closes (env : Env) (ctx : Context) (conf : Config)
    (log : SeeleLog) (tr : List Event) (s : SeeleService)
    (henv : env.NonNilOnSuccess)
    (h : NewSeeleService env ctx conf log = (tr, Outcome.ret (some s, none))) :
    ∃ p db, s.seeleProtocol = some p ∧ s.chainDB = some db ∧
      ∀ env' : Env, s.Stop env' =
        ([Event.protocolStop (some p), Event.dbClose db (env'.dbClose db)],
          Outcome.ret none) := by
  obtain ⟨p, db, hp, hdb⟩ := constructed_handles henv h
  refine ⟨p, db, hp, hdb, ?_⟩
  intro env'
  simp [SeeleService.Stop, hp, hdb]

/-- C4, at the service built from collaborators that all succeed, stopped with
a store whose `Close` reports an error. -/
theorem stop_stops_handler_then_closes_witness :
    envOk.NonNilOnSuccess ∧
    NewSeeleService envOk ctx1 conf1 log1 =
      ((NewSeeleService envOk ctx1 conf1 log1).1, Outcome.ret (some svc1, none)) ∧
    svc1.Stop envCloseErr =
      ([Event.protocolStop (some { Protocol := { Name := "seele", Version := 1 }, id := 17 }),
        Event.dbClose { id := 7 } (some "close failed")], Outcome.ret none) ∧
    ∃ p db, svc1.seeleProtocol = some p ∧ svc1.chainDB = some db ∧
      ∀ env' : Env, svc1.Stop env' =
        ([Event.protocolStop (some p), Event.dbClose db (env'.dbClose db)],
          Outcome.ret none) :=
  ⟨envOk_nonNil, by decide, by decide,
    stop_stops_handler_then_closes envOk ctx1 conf1 log1
      (NewSeeleService envOk ctx1 conf1 log1).1 svc1 envOk_nonNil (by decide)⟩

/-- C5 (defect in the code): a construction that fails at the store open does
not perform exactly one `Close`. With `leveldb.NewLevelDB` returning the nil
handle and an error, the store-open step of the run has failed, the run
performs zero `Close` calls, and it ends in a panic instead of handing back
the nil service. -/
theorem failed_open_performs_no_close :
    (∃ e ∈ (NewSeeleService envOpenFails ctx1 conf1 log1).1,
      e.step = some Step.storeOpen ∧ e.stepError = some "permission denied") ∧
    closeCount (NewSeeleService envOpenFails ctx1 conf1 log1).1 = 0 ∧
    (NewSeeleService envOpenFails ctx1 conf1 log1).2 ≠ Outcome.ret (none, some "permission denied") := by
  decide

/-- C6: on the service returned by a successful `NewSeeleService`, `NetVersion`
is the `NetworkID` of the configuration, and it still is after any sequence of
`Start`, `Stop`, `Protocols`, `APIs`, `ApplyTransaction` and accessor calls. -/
theorem netVersion_is_configured_networkID (env : Env) (ctx : Context) (conf : Config)
    (log : SeeleLog) (tr : List Event) (s : SeeleService)
    (h : NewSeeleService env ctx conf log = (tr, Outcome.ret (some s, none)))
    (env' : Env) (cs : List Call) :
    s.NetVersion = conf.NetworkID ∧
    (Host.calls env' { svc := s, trace := tr, crashed := false } cs).svc.NetVersion =
      conf.NetworkID := by
  have hs := (newSeeleService_success h).1
  refine ⟨hs, ?_⟩
  rw [Host.calls_svc]
  exact hs

/-- C6, at `NetworkID = 1` and the calls Start, Protocols, APIs,
ApplyTransaction, Stop, Stop. -/
theorem netVersion_is_configured_networkID_witness :
    NewSeeleService envOk ctx1 conf1 log1 =
      ((NewSeeleService envOk ctx1 conf1 log1).1, Outcome.ret (some svc1, none)) ∧
    svc1.NetVersion = 1 ∧
    (Host.calls envCloseErr
      { svc := svc1, trace := (NewSeeleService envOk ctx1 conf1 log1).1, crashed := false }
      [Call.Start (some { id := 5 }), Call.Protocols, Call.APIs,
        Call.ApplyTransaction { bytes := [9] } none, Call.Stop, Call.Stop]).svc.NetVersion = 1 :=
  ⟨by decide,
    netVersion_is_configured_networkID envOk ctx1 conf1 log1
      (NewSeeleService envOk ctx1 conf1 log1).1 svc1 (by decide) envCloseErr
      [Call.Start (some { id := 5 }), Call.Protocols, Call.APIs,
        Call.ApplyTransaction { bytes := [9] } none, Call.Stop, Call.Stop]⟩

/-- C7: on every service returned by a successful `NewSeeleService` (with
collaborators that hand back non-nil values when they report no error),
`Protocols` returns the one-element sequence holding the `Protocol` descriptor
of the service's handler, and it returns the same sequence after a call of
`Start`; neither `Protocols` nor `Start` changes the service. -/
theorem protocols_single_and_stable (env : Env) (ctx : Context) (conf : Config)
    (log : SeeleLog) (tr : List Event) (s : SeeleService)
    (henv : env.NonNilOnSuccess)
    (h : NewSeeleService env ctx conf log = (tr, Outcome.ret (some s, none)))
    (env' : Env) (srvr : Option Server) :
    ∃ p, s.seeleProtocol = some p ∧
      s.Protocols = Outcome.ret [p.Protocol] ∧
      [p.Protocol].length = 1 ∧
      (Host.call env' { svc := s, trace := tr, crashed := false }
        (Call.Start srvr)).svc.Protocols = s.Protocols ∧
      (Host.call env' { svc := s, trace := tr, crashed := false } (Call.Start srvr)) =
        { svc := s, trace := tr, crashed := false } ∧
      (Host.call env' { svc := s, trace := tr, crashed := false } Call.Protocols) =
        { svc := s, trace := tr, crashed := false } := by
  obtain ⟨p, db, hp, -⟩ := constructed_handles henv h
  refine ⟨p, hp, ?_, rfl, ?_, ?_, ?_⟩
  · simp [SeeleService.Protocols, hp]
  · rw [Host.call_svc]
  · simp [Host.call, Host.after, SeeleService.Start]
  · simp [Host.call, Host.after, SeeleService.Protocols, hp]

/-- C7, at the service built from collaborators that all succeed. -/
theorem protocols_single_and_stable_witness :
    envOk.NonNilOnSuccess ∧
    svc1.Protocols = Outcome.ret [{ Name := "seele", Version := 1 }] ∧
    ∃ p, svc1.seeleProtocol = some p ∧
      svc1.Protocols = Outcome.ret [p.Protocol] ∧
      [p.Protocol].length = 1 ∧
      (Host.call envOk
        { svc := svc1, trace := (NewSeeleService envOk ctx1 conf1 log1).1, crashed := false }
        (Call.Start (some { id := 5 }))).svc.Protocols = svc1.Protocols ∧
      (Host.call envOk
        { svc := svc1, trace := (NewSeeleService envOk ctx1 conf1 log1).1, crashed := false }
        (Call.Start (some { id := 5 }))) =
        { svc := svc1, trace := (NewSeeleService envOk ctx1 conf1 log1).1, crashed := false } ∧
      (Host.call envOk
        { svc := svc1, trace := (NewSeeleService envOk ctx1 conf1 log1).1, crashed := false }
        Call.Protocols) =
        { svc := svc1, trace := (NewSeeleService envOk ctx1 conf1 log1).1, crashed := false } :=
  ⟨envOk_nonNil, by decide,
    protocols_single_and_stable envOk ctx1 conf1 log1
      (NewSeeleService envOk ctx1 conf1 log1).1 svc1 envOk_nonNil (by decide) envOk
      (some { id := 5 })⟩

/-- C8: for every service `s`, `APIs` returns exactly one entry, with namespace
"seele", version "1.0", the public flag set, and as its service the object
`NewPublicSeeleAPI(s)` built over `s`. -/
theorem apis_single_public_seele_entry (s : SeeleService) :
    s.APIs = [{ Namespace := "seele", Version := "1.0", Service := NewPublicSeeleAPI s,
                Public := true }] ∧
    s.APIs.length = 1 ∧
    ∀ a ∈ s.APIs, a.Namespace = "seele" ∧ a.Version = "1.0" ∧ a.Public = true ∧
      a.Service = NewPublicSeeleAPI s ∧ a.Service.s = s := by
  simp [SeeleService.APIs, NewPublicSeeleAPI]

/-- C9 (defect in the code): a construction error is not always propagated.
With `leveldb.NewLevelDB` returning the nil handle and the error
"permission denied", the first failing step of the run is the store open with
that error, and `NewSeeleService` returns nothing to its caller: the run
panics. -/
theorem open_error_not_returned :
    Event.newLevelDB "/tmp/node1/db/blockchain" (none, some "permission denied") ∈
      (NewSeeleService envOpenFails ctx1 conf1 log1).1 ∧
    (NewSeeleService envOpenFails ctx1 conf1 log1).1.filterMap Event.stepError =
      ["permission denied"] ∧
    (NewSeeleService envOpenFails ctx1 conf1 log1).2.returns = false := by
  decide

/-- C10: every run of `NewSeeleService` takes its steps in the order store
open, genesis initialization, chain construction, transaction-pool
construction, protocol-handler construction (the steps taken are an initial
segment of that list, and all five when the run succeeds); after a step that
returned an error no further step is taken; and the service handed to
`NewSeeleProtocol` carries the configured network id, the chain that
`core.NewBlockchain` returned and the pool that `core.NewTransactionPool`
returned, its handler still being nil. -/
theorem construction_steps_in_order (env : Env) (ctx : Context) (conf : Config)
    (log : SeeleLog) :
    ((NewSeeleService env ctx conf log).1.filterMap Event.step <+: constructionOrder) ∧
    (∀ s, (NewSeeleService env ctx conf log).2 = Outcome.ret (some s, none) →
      (NewSeeleService env ctx conf log).1.filterMap Event.step = constructionOrder) ∧
    (∀ pre e post, (NewSeeleService env ctx conf log).1 = pre ++ e :: post →
      e.stepError ≠ none → ∀ e' ∈ post, e'.step = none) ∧
    (∀ s l res, Event.newSeeleProtocol s l res ∈ (NewSeeleService env ctx conf log).1 →
      s.networkID = conf.NetworkID ∧ s.seeleProtocol = none ∧
      Event.newBlockchain { db := s.chainDB } (s.chain, none) ∈
        (NewSeeleService env ctx conf log).1 ∧
      Event.newTransactionPool conf.TxConf s.txPool ∈
        (NewSeeleService env ctx conf log).1) := by
  refine ⟨newSeeleService_steps_ordered env ctx conf log, ?_,
    stopsAtFirstFailure_split (newSeeleService_stopsAtFirstFailure env ctx conf log), ?_⟩
  · intro s hs
    have hpair : NewSeeleService env ctx conf log =
        ((NewSeeleService env ctx conf log).1, Outcome.ret (some s, none)) := by
      rw [← hs]
    exact (newSeeleService_success hpair).2.2.2.2.2.2.2.1
  · intro s l res hmem
    obtain ⟨h1, -, h3, h4, h5⟩ := newSeeleService_protocol_arg env ctx conf log s l res hmem
    exact ⟨h1, h3, h4, h5⟩

/-- C10, at a run whose genesis initialization fails: the steps taken are the
store open and the genesis initialization, and nothing after them. -/
theorem construction_steps_in_order_witness :
    (NewSeeleService envGenesisFails ctx1 conf1 log1).1.filterMap Event.step =
      [Step.storeOpen, Step.genesisInit] ∧
    ((NewSeeleService envGenesisFails ctx1 conf1 log1).1.filterMap Event.step <+:
      constructionOrder) ∧
    (∀ pre e post, (NewSeeleService envGenesisFails ctx1 conf1 log1).1 = pre ++ e :: post →
      e.stepError ≠ none → ∀ e' ∈ post, e'.step = none) :=
  ⟨by decide, (construction_steps_in_order envGenesisFails ctx1 conf1 log1).1,
    (construction_steps_in_order envGenesisFails ctx1 conf1 log1).2.2.1⟩

end Seele
